import Mathlib

/-!
Verification of the content-extraction and summarization pipeline of the
financial summarization repository.

The development embeds, as executable Lean definitions, the parts of the
code that the checked properties are about:

* `summarizer.py` — the `Website` class: HTML cleaning (`_clean_html`),
  title extraction (`_get_title`), meta-description extraction
  (`_get_description`) and the fetch/extract boundary (`extract_content`).
  The parsed HTML document produced by BeautifulSoup is modelled as a tree
  of text nodes and elements; `get_text(strip=True)` and
  `get_text(separator, strip=True)` are modelled by `visTexts`/`getText`;
  Python `str.strip()` is modelled by `pyStrip`.
* `api_client.py` — the analysis-prompt table of
  `FinancialAnalystClient.summarize_content` and its error handling
  (`RateLimitError` / `APIError` / unexpected exceptions all map to `None`).
  The OpenAI completion call is an external collaborator and is modelled as
  an oracle returning a `CompletionOutcome`.
* `summarization_service.py` — `summarize_article_from_url` and
  `summarize_text` of `FinancialSummarizationService`.

The HTTP fetch is external: it is modelled by a `FetchResult` oracle value,
`failure` covering both transport errors and non-2xx statuses (both raise
`requests.RequestException` in the source, via `requests.get` and
`raise_for_status` respectively).
-/

namespace Summarization

/-- Python `str.strip()` (and the per-string stripping that BeautifulSoup
`get_text(strip=True)` performs): remove leading and trailing whitespace. -/
def pyStrip (s : String) : String :=
  String.mk (((s.data.dropWhile Char.isWhitespace).reverse.dropWhile Char.isWhitespace).reverse)

mutual
/-- A node of the parsed HTML tree produced by BeautifulSoup: either a text
node (`NavigableString`) or an element (`Tag`) with a tag name, an attribute
dictionary, and children. -/
inductive Node where
| text (s : String) : Node
| elem (tag : String) (attrs : List (String × String)) (children : NodeList) : Node

/-- A list of HTML nodes: the children of an element, or the top-level
forest of the parsed document. -/
inductive NodeList where
| nil : NodeList
| cons (n : Node) (rest : NodeList) : NodeList
end

/-- Converts a `List Node` into a `NodeList` (construction convenience for
concrete documents). -/
def nodes : List Node → NodeList
| [] => .nil
| n :: r => .cons n (nodes r)

/-- Element-construction convenience: an element whose children are given as
a `List Node`. -/
def Node.el (tag : String) (attrs : List (String × String)) (children : List Node) : Node :=
  .elem tag attrs (nodes children)

mutual
/-- The strings yielded by BeautifulSoup `get_text(strip=True)` for one
node, in document order: every descendant text node is stripped, and empty
results are dropped. -/
def Node.visTexts : Node → List String
| .text s => if pyStrip s = "" then [] else [pyStrip s]
| .elem _ _ c => c.visTexts
termination_by structural n => n

/-- `Node.visTexts` over a forest, in document order. -/
def NodeList.visTexts : NodeList → List String
| .nil => []
| .cons n rest => n.visTexts ++ rest.visTexts
termination_by structural l => l
end

/-- BeautifulSoup `get_text(separator=sep, strip=True)` over a forest: the
stripped, non-empty text fragments joined with the separator. -/
def getText (sep : String) (l : NodeList) : String :=
  String.intercalate sep l.visTexts

/-- The fixed removal denylist `unwanted_tags` of `Website._clean_html`
(`summarizer.py`, lines 97-111). -/
def unwantedTags : List String :=
  ["script", "style", "noscript", "iframe", "ad", "img", "form", "nav",
   "aside", "link", "button", "figure", "input"]

mutual
/-- The denylist-removal pass of `Website._clean_html` (lines 112-114), on
one node: `element.decompose()` removes an element together with its entire
subtree whenever its tag is in `unwanted_tags` (`none` means the node was
decomposed). Iterating `soup.find_all(tag).decompose()` over the tags of
the list removes exactly the elements whose tag is in the list, each with
its whole subtree, which is what this recursion computes. -/
def Node.removeUnwanted? : Node → Option Node
| .text s => some (.text s)
| .elem t a c =>
    if unwantedTags.contains t then none
    else some (.elem t a c.removeUnwanted)
termination_by structural n => n

/-- The denylist-removal pass over a forest. -/
def NodeList.removeUnwanted : NodeList → NodeList
| .nil => .nil
| .cons n rest =>
    match n.removeUnwanted? with
    | none => rest.removeUnwanted
    | some m => .cons m rest.removeUnwanted
termination_by structural l => l
end

mutual
/-- The empty-element cleanup pass of `Website._clean_html` (lines 115-118),
on one node: an element is decomposed when `element.get_text(strip=True)`
is empty. The Python pass iterates over a pre-order `soup.find_all()`
snapshot, so every element still present when visited is checked against
its original subtree, which is what this recursion computes. -/
def Node.removeEmpty? : Node → Option Node
| .text s => some (.text s)
| .elem t a c =>
    if getText "" c = "" then none
    else some (.elem t a c.removeEmpty)
termination_by structural n => n

/-- The empty-element cleanup pass over a forest. -/
def NodeList.removeEmpty : NodeList → NodeList
| .nil => .nil
| .cons n rest =>
    match n.removeEmpty? with
    | none => rest.removeEmpty
    | some m => .cons m rest.removeEmpty
termination_by structural l => l
end

/-- `Website._clean_html` (lines 90-119): denylist removal, then
empty-element cleanup, then `soup.get_text(separator="\n", strip=True)`. -/
def clean_html (doc : NodeList) : String :=
  getText "\n" (doc.removeUnwanted.removeEmpty)

mutual
/-- BeautifulSoup `soup.find(...)`: the first element, in document
(pre-order depth-first) order, whose tag name and attribute dictionary
satisfy `p`; returns its tag, attributes and children. -/
def Node.find? (p : String → List (String × String) → Bool) :
    Node → Option (String × List (String × String) × NodeList)
| .text _ => none
| .elem t a c => if p t a then some (t, a, c) else c.find? p
termination_by structural n => n

/-- `Node.find?` over a forest, in document order. -/
def NodeList.find? (p : String → List (String × String) → Bool) :
    NodeList → Option (String × List (String × String) × NodeList)
| .nil => none
| .cons n rest =>
    match n.find? p with
    | some r => some r
    | none => rest.find? p
termination_by structural l => l
end

mutual
/-- BeautifulSoup `PageElement.string` on one node: a `NavigableString` is
its own string; a `Tag` has a string only when it has exactly one child,
in which case it is that child's string; otherwise `None`. -/
def Node.string? : Node → Option String
| .text s => some s
| .elem _ _ c => c.onlyChildString
termination_by structural n => n

/-- `Tag.string` through a children list: defined only when the list has
exactly one element. -/
def NodeList.onlyChildString : NodeList → Option String
| .cons n .nil => n.string?
| _ => none
termination_by structural l => l
end

/-- `Website._get_title` (`summarizer.py`, lines 75-80). `soup.title` is
the first `<title>` element; a BeautifulSoup `Tag` is always truthy, so
whenever such an element exists the code evaluates
`soup.title.string.strip()`; when the element's `.string` is `None` (zero
or several children) this raises `AttributeError`, modelled by `.error`. -/
def get_title (doc : NodeList) : Except String String :=
  match doc.find? (fun t _ => t == "title") with
  | none => .ok "No Title"
  | some (_, _, c) =>
      match c.onlyChildString with
      | none => .error "AttributeError"
      | some s => .ok (pyStrip s)

/-- The element filter of `Website._get_description`:
`soup.find("meta", attrs={"name": "description"})`. -/
def isMetaDescription (t : String) (a : List (String × String)) : Bool :=
  t == "meta" && a.lookup "name" == some "description"

/-- `Website._get_description` (`summarizer.py`, lines 82-88): the found
`Tag` is always truthy, so the guard reduces to the element being found and
carrying a `content` attribute, whose stripped value is then returned;
otherwise the sentinel. -/
def get_description (doc : NodeList) : String :=
  match doc.find? isMetaDescription with
  | none => "No Description"
  | some (_, a, _) =>
      match a.lookup "content" with
      | none => "No Description"
      | some v => pyStrip v

/-- Characters allowed in a URL scheme by `urllib.parse` after the leading
letter: letters, digits, `+`, `-`, `.`. -/
def isSchemeChar (c : Char) : Bool :=
  c.isAlphanum || c == '+' || c == '-' || c == '.'

/-- `urlparse(url).scheme` is non-empty: the URL contains a `:` preceded by
a non-empty prefix that starts with a letter and consists of scheme
characters. -/
def hasScheme (url : String) : Bool :=
  match url.data.dropWhile (fun c => c != ':') with
  | [] => false
  | _ :: _ =>
      match url.data.takeWhile (fun c => c != ':') with
      | [] => false
      | c :: rest => c.isAlpha && (c :: rest).all isSchemeChar

/-- The four mutable fields of the `Website` class (`summarizer.py`). -/
structure Website where
  url : String
  title : String
  description : String
  content : String
deriving DecidableEq

/-- `Website.__init__` (lines 23-37): prepends `http://` when the URL has
no scheme and initializes `title`, `description` and `content` to the empty
string. -/
def Website.init (url : String) : Website :=
  { url := if hasScheme url then url else "http://" ++ url
    title := ""
    description := ""
    content := "" }

/-- Outcome of the HTTP fetch performed inside `Website.extract_content`:
on success, the document parsed by BeautifulSoup; `failure` covers every
`requests.RequestException`, i.e. both transport errors raised by
`requests.get` and non-2xx statuses raised by `raise_for_status`. -/
inductive FetchResult where
| success (doc : NodeList) : FetchResult
| failure (detail : String) : FetchResult

/-- `Website.extract_content` (lines 54-73): on a fetch failure the
exception is caught and the empty string is returned with the object
untouched; on success the title, description and content fields are
assigned in that order and the content is returned. An `AttributeError`
raised by `_get_title` is not caught here (only `requests.RequestException`
is) and propagates, leaving every field untouched; this is the `.error`
result. -/
def Website.extract_content (w : Website) : FetchResult → Website × Except String String
| .failure _ => (w, .ok "")
| .success doc =>
    match get_title doc with
    | .error e => (w, .error e)
    | .ok t =>
        ({ w with title := t
                  description := get_description doc
                  content := clean_html doc },
         .ok (clean_html doc))

/-- The `summary` entry of the prompt table of
`FinancialAnalystClient.summarize_content` (`api_client.py`, line 78). -/
def summaryPrompt : String :=
  "You are provided with a cleaned up financial news article. Please summarize the key points and implications for investors."

/-- The `prompts` dictionary of `FinancialAnalystClient.summarize_content`
(`api_client.py`, lines 77-82). -/
def prompts : List (String × String) :=
  [("summary", summaryPrompt),
   ("key_points", "Extract and list the top 5 key points from this financial article that investors should know about."),
   ("action_items", "Based on this financial article, what actionable items should investors consider? List them clearly."),
   ("risks", "Identify and explain the key risks mentioned or implied in this financial article for investors.")]

/-- `prompts.get(analysis_type, prompts["summary"])` (`api_client.py`,
line 84): total lookup falling back to the `summary` prompt. -/
def prompts_get (analysis_type : String) : String :=
  (prompts.lookup analysis_type).getD summaryPrompt

/-- Outcome of one OpenAI chat-completion call, as classified by the
`except` clauses of `FinancialAnalystClient.summarize_content`
(`api_client.py`, lines 98-106). -/
inductive CompletionOutcome where
| success (text : String) : CompletionOutcome
| rateLimited : CompletionOutcome
| apiError (msg : String) : CompletionOutcome
| unexpectedError (msg : String) : CompletionOutcome

/-- `FinancialAnalystClient.summarize_content` (`api_client.py`, lines
63-106): composes the system and user messages, invokes the completion
endpoint (the oracle `api`), returns the generated text on success, and
maps `RateLimitError`, `APIError` and any unexpected exception to `None`
(no exception escapes the client). -/
def summarize_content (api : String → String → CompletionOutcome)
    (content : String) (analysis_type : String) : Option String :=
  match api ("You are a helpful assistant who is an expert financial analyst. "
              ++ prompts_get analysis_type)
            ("Here is the content to analyze:\n\n" ++ content) with
  | .success t => some t
  | .rateLimited => none
  | .apiError _ => none
  | .unexpectedError _ => none

/-- `FinancialSummarizationService.summarize_article_from_url`
(`summarization_service.py`, lines 25-63): construct a `Website`, extract
its content (`fetch` is the outcome of the HTTP request for
`article_url`), fail with `None` when the content is falsy or
whitespace-only, otherwise forward content and analysis type to the
completion client and return its result unchanged. The outer
`except Exception` converts a propagated extraction exception to `None`.
The boolean records whether the completion client was invoked. -/
def summarize_article_from_url (api : String → String → CompletionOutcome)
    (fetch : FetchResult) (article_url : String) (analysis_type : String) :
    Option String × Bool :=
  match ((Website.init article_url).extract_content fetch).2 with
  | .error _ => (none, false)
  | .ok content =>
      if content = "" ∨ pyStrip content = "" then (none, false)
      else (summarize_content api content analysis_type, true)

/-- `FinancialSummarizationService.summarize_text`
(`summarization_service.py`, lines 65-96): fail with `None` when the text
is falsy or whitespace-only, otherwise forward it to the completion client
and return its result unchanged. The boolean records whether the
completion client was invoked. -/
def summarize_text (api : String → String → CompletionOutcome)
    (text : String) (analysis_type : String) : Option String × Bool :=
  if text = "" ∨ pyStrip text = "" then (none, false)
  else (summarize_content api text analysis_type, true)

mutual
/-- No element anywhere in this node has empty visible text: the
empty-element cleanup pass has nothing left to remove (fixed point). -/
def Node.noEmptyElem : Node → Bool
| .text _ => true
| .elem _ _ c => (getText "" c != "") && c.noEmptyElem
termination_by structural n => n

/-- `Node.noEmptyElem` over a forest. -/
def NodeList.noEmptyElem : NodeList → Bool
| .nil => true
| .cons n rest => n.noEmptyElem && rest.noEmptyElem
termination_by structural l => l
end

mutual
/-- No element anywhere in this node has a tag from the removal denylist. -/
def Node.noUnwanted : Node → Bool
| .text _ => true
| .elem t _ c => !(unwantedTags.contains t) && c.noUnwanted
termination_by structural n => n

/-- `Node.noUnwanted` over a forest. -/
def NodeList.noUnwanted : NodeList → Bool
| .nil => true
| .cons n rest => n.noUnwanted && rest.noUnwanted
termination_by structural l => l
end

mutual
/-- Every text node in this node is whitespace-only: the document has no
visible text anywhere (text nodes are the leaves of the parse tree). -/
def Node.allWhitespaceText : Node → Bool
| .text s => pyStrip s == ""
| .elem _ _ c => c.allWhitespaceText
termination_by structural n => n

/-- `Node.allWhitespaceText` over a forest. -/
def NodeList.allWhitespaceText : NodeList → Bool
| .nil => true
| .cons n rest => n.allWhitespaceText && rest.allWhitespaceText
termination_by structural l => l
end

/-- Every top-level node of the document is an element whose tag is in the
removal denylist (an input consisting only of denylist elements). -/
def NodeList.allDenylistRoots : NodeList → Bool
| .nil => true
| .cons (.text _) _ => false
| .cons (.elem t _ _) rest => unwantedTags.contains t && rest.allDenylistRoots

/-- The visible texts of an optional node (`none` is a decomposed node). -/
def optVisTexts : Option Node → List String
| none => []
| some n => n.visTexts

/-- A Boolean node predicate lifted to an optional node (`none`, a
decomposed node, satisfies everything). -/
def optAll (p : Node → Bool) : Option Node → Bool
| none => true
| some n => p n

/-! ### Supporting lemmas -/

theorem pyStrip_empty : pyStrip "" = "" := rfl

theorem pyStrip_of_eq_empty {s : String} (h : s = "") : pyStrip s = "" := by
  rw [h]
  rfl

theorem append_ne_empty (a b : String) (h : a ≠ "") : a ++ b ≠ "" := by
  intro hc
  apply h
  apply String.ext
  have : (a ++ b).data = ("" : String).data := by rw [hc]
  rw [String.data_append] at this
  exact (List.append_eq_nil.mp this).1

theorem intercalate_go_ne_empty (as : List String) :
    ∀ acc : String, acc ≠ "" → String.intercalate.go acc "" as ≠ "" := by
  induction as with
  | nil => intro acc h; simpa [String.intercalate.go] using h
  | cons b bs ih =>
      intro acc h
      simp only [String.intercalate.go]
      exact ih _ (append_ne_empty _ _ (append_ne_empty _ _ h))

theorem visTexts_ne_empty (l : NodeList) : ∀ s ∈ l.visTexts, s ≠ "" := by
  refine @NodeList.rec
    (fun n => ∀ s ∈ n.visTexts, s ≠ "")
    (fun l => ∀ s ∈ l.visTexts, s ≠ "") ?_ ?_ ?_ ?_ l
  · intro t s hs
    simp only [Node.visTexts] at hs
    split at hs
    · simp at hs
    · simp only [List.mem_singleton] at hs
      subst hs
      assumption
  · intro tag attrs c ih s hs
    exact ih s (by simpa [Node.visTexts] using hs)
  · simp [NodeList.visTexts]
  · intro n rest ihn ihr s hs
    rcases List.mem_append.mp (by simpa [NodeList.visTexts] using hs) with h | h
    · exact ihn s h
    · exact ihr s h

theorem getText_empty_iff (l : NodeList) : getText "" l = "" ↔ l.visTexts = [] := by
  constructor
  · intro h
    cases hv : l.visTexts with
    | nil => rfl
    | cons a as =>
        exfalso
        have ha : a ≠ "" := visTexts_ne_empty l a (by rw [hv]; exact List.mem_cons_self a as)
        have hne : String.intercalate "" (a :: as) ≠ "" := by
          simpa [String.intercalate] using intercalate_go_ne_empty as a ha
        rw [getText, hv] at h
        exact hne h
  · intro h
    rw [getText, h]
    rfl

theorem visTexts_removeEmpty (l : NodeList) : l.removeEmpty.visTexts = l.visTexts := by
  refine @NodeList.rec
    (fun n => optVisTexts n.removeEmpty? = n.visTexts)
    (fun l => l.removeEmpty.visTexts = l.visTexts) ?_ ?_ ?_ ?_ l
  · intro s; rfl
  · intro t a c ih
    simp only [Node.removeEmpty?]
    split
    · rename_i hc
      simp only [optVisTexts, Node.visTexts]
      exact ((getText_empty_iff c).mp hc).symm
    · simp only [optVisTexts, Node.visTexts]
      exact ih
  · rfl
  · intro n rest ihn ihr
    cases h : n.removeEmpty? with
    | none =>
        rw [h] at ihn
        simp only [optVisTexts] at ihn
        simp only [NodeList.removeEmpty, h, NodeList.visTexts, ← ihn, List.nil_append]
        exact ihr
    | some m =>
        rw [h] at ihn
        simp only [optVisTexts] at ihn
        simp only [NodeList.removeEmpty, h, NodeList.visTexts, ihn, ihr]

theorem getText_removeEmpty (sep : String) (l : NodeList) :
    getText sep l.removeEmpty = getText sep l := by
  rw [getText, getText, visTexts_removeEmpty]

theorem noEmptyElem_removeEmpty (l : NodeList) : l.removeEmpty.noEmptyElem = true := by
  refine @NodeList.rec
    (fun n => optAll Node.noEmptyElem n.removeEmpty? = true)
    (fun l => l.removeEmpty.noEmptyElem = true) ?_ ?_ ?_ ?_ l
  · intro s; rfl
  · intro t a c ih
    simp only [Node.removeEmpty?]
    split
    · rfl
    · rename_i hc
      simp only [optAll, Node.noEmptyElem, Bool.and_eq_true]
      refine ⟨?_, ih⟩
      rw [getText_removeEmpty]
      simpa [bne_iff_ne] using hc
  · rfl
  · intro n rest ihn ihr
    cases h : n.removeEmpty? with
    | none => simp only [NodeList.removeEmpty, h]; exact ihr
    | some m =>
        rw [h] at ihn
        simp only [optAll] at ihn
        simp only [NodeList.removeEmpty, h, NodeList.noEmptyElem, Bool.and_eq_true]
        exact ⟨ihn, ihr⟩

theorem noUnwanted_removeUnwanted (l : NodeList) : l.removeUnwanted.noUnwanted = true := by
  refine @NodeList.rec
    (fun n => optAll Node.noUnwanted n.removeUnwanted? = true)
    (fun l => l.removeUnwanted.noUnwanted = true) ?_ ?_ ?_ ?_ l
  · intro s; rfl
  · intro t a c ih
    simp only [Node.removeUnwanted?]
    split
    · rfl
    · rename_i hc
      simp only [optAll, Node.noUnwanted, Bool.and_eq_true]
      refine ⟨?_, ih⟩
      simp only [Bool.not_eq_true']
      exact Bool.eq_false_iff.mpr hc
  · rfl
  · intro n rest ihn ihr
    cases h : n.removeUnwanted? with
    | none => simp only [NodeList.removeUnwanted, h]; exact ihr
    | some m =>
        rw [h] at ihn
        simp only [optAll] at ihn
        simp only [NodeList.removeUnwanted, h, NodeList.noUnwanted, Bool.and_eq_true]
        exact ⟨ihn, ihr⟩

theorem noUnwanted_removeEmpty (l : NodeList) (h : l.noUnwanted = true) :
    l.removeEmpty.noUnwanted = true := by
  refine @NodeList.rec
    (fun n => n.noUnwanted = true → optAll Node.noUnwanted n.removeEmpty? = true)
    (fun l => l.noUnwanted = true → l.removeEmpty.noUnwanted = true) ?_ ?_ ?_ ?_ l h
  · intro s _; rfl
  · intro t a c ih hn
    simp only [Node.noUnwanted, Bool.and_eq_true] at hn
    simp only [Node.removeEmpty?]
    split
    · rfl
    · simp only [optAll, Node.noUnwanted, Bool.and_eq_true]
      exact ⟨hn.1, ih hn.2⟩
  · intro _; rfl
  · intro n rest ihn ihr hh
    simp only [NodeList.noUnwanted, Bool.and_eq_true] at hh
    cases h' : n.removeEmpty? with
    | none => simp only [NodeList.removeEmpty, h']; exact ihr hh.2
    | some m =>
        have := ihn hh.1
        rw [h'] at this
        simp only [optAll] at this
        simp only [NodeList.removeEmpty, h', NodeList.noUnwanted, Bool.and_eq_true]
        exact ⟨this, ihr hh.2⟩

theorem allWhitespaceText_removeUnwanted (l : NodeList) (h : l.allWhitespaceText = true) :
    l.removeUnwanted.allWhitespaceText = true := by
  refine @NodeList.rec
    (fun n => n.allWhitespaceText = true → optAll Node.allWhitespaceText n.removeUnwanted? = true)
    (fun l => l.allWhitespaceText = true → l.removeUnwanted.allWhitespaceText = true) ?_ ?_ ?_ ?_ l h
  · intro s hs; simpa [optAll, Node.removeUnwanted?] using hs
  · intro t a c ih hn
    simp only [Node.allWhitespaceText] at hn
    simp only [Node.removeUnwanted?]
    split
    · rfl
    · simp only [optAll, Node.allWhitespaceText]
      exact ih hn
  · intro _; rfl
  · intro n rest ihn ihr hh
    simp only [NodeList.allWhitespaceText, Bool.and_eq_true] at hh
    cases h' : n.removeUnwanted? with
    | none => simp only [NodeList.removeUnwanted, h']; exact ihr hh.2
    | some m =>
        have := ihn hh.1
        rw [h'] at this
        simp only [optAll] at this
        simp only [NodeList.removeUnwanted, h', NodeList.allWhitespaceText, Bool.and_eq_true]
        exact ⟨this, ihr hh.2⟩

theorem visTexts_eq_nil_of_allWhitespaceText (l : NodeList) (h : l.allWhitespaceText = true) :
    l.visTexts = [] := by
  refine @NodeList.rec
    (fun n => n.allWhitespaceText = true → n.visTexts = [])
    (fun l => l.allWhitespaceText = true → l.visTexts = []) ?_ ?_ ?_ ?_ l h
  · intro s hs
    simp only [Node.allWhitespaceText, beq_iff_eq] at hs
    simp [Node.visTexts, hs]
  · intro t a c ih hc
    simp only [Node.allWhitespaceText] at hc
    simpa [Node.visTexts] using ih hc
  · intro _; rfl
  · intro n rest ihn ihr hh
    simp only [NodeList.allWhitespaceText, Bool.and_eq_true] at hh
    simp [NodeList.visTexts, ihn hh.1, ihr hh.2]

theorem removeUnwanted_eq_nil_of_denylistRoots :
    ∀ l : NodeList, l.allDenylistRoots = true → l.removeUnwanted = .nil := by
  refine @NodeList.rec (fun _ => True)
    (fun l => l.allDenylistRoots = true → l.removeUnwanted = .nil)
    (fun _ => trivial) (fun _ _ _ _ => trivial) (fun _ => rfl) ?_
  intro n rest ihn ihr h
  cases n with
  | text s => simp [NodeList.allDenylistRoots] at h
  | elem t a c =>
      simp only [NodeList.allDenylistRoots, Bool.and_eq_true] at h
      simp only [NodeList.removeUnwanted, Node.removeUnwanted?, h.1, if_pos]
      exact ihr h.2

/-! ### Claims -/

/-- C1: after the denylist-removal pass, the empty-element cleanup of
`_clean_html` removes every remaining element whose visible text (after
trimming) is empty, exhaustively to a fixed point: no element with empty
visible text survives the pass anywhere in the tree (in particular an
element emptied by the removal of its children is itself removed); and for
every document whose text leaves are all whitespace-only, the extracted
content is the empty string. -/
theorem c1_empty_cleanup_fixed_point (doc : NodeList) :
    (doc.removeUnwanted.removeEmpty).noEmptyElem = true ∧
    (doc.allWhitespaceText = true → clean_html doc = "") := by
  constructor
  · exact noEmptyElem_removeEmpty _
  · intro h
    rw [clean_html, getText, visTexts_removeEmpty,
        visTexts_eq_nil_of_allWhitespaceText _ (allWhitespaceText_removeUnwanted _ h)]
    rfl

/-- Witness for C1: a concrete document in which every text leaf is
whitespace-only extracts to empty content. -/
theorem c1_witness :
    (nodes [Node.el "div" [] [Node.el "p" [] [.text "   "], .text " "]]).allWhitespaceText
      = true ∧
    clean_html (nodes [Node.el "div" [] [Node.el "p" [] [.text "   "], .text " "]]) = "" :=
  ⟨by decide, (c1_empty_cleanup_fixed_point _).2 (by decide)⟩

/-- C2: the cleaned tree from which `content` is serialized contains no
element whose tag is in the removal denylist (each such element was removed
together with its entire subtree), and a document consisting only of
denylist elements extracts to the empty string. -/
theorem c2_denylist_removal (doc : NodeList) :
    (doc.removeUnwanted.removeEmpty).noUnwanted = true ∧
    (doc.allDenylistRoots = true → clean_html doc = "") := by
  constructor
  · exact noUnwanted_removeEmpty _ (noUnwanted_removeUnwanted _)
  · intro h
    rw [clean_html, removeUnwanted_eq_nil_of_denylistRoots _ h]
    rfl

/-- Witness for C2: a concrete document made only of denylist elements
(with non-trivial subtrees) extracts to empty content. -/
theorem c2_witness :
    (nodes [Node.el "script" [] [.text "alert(1)"],
            Node.el "nav" [] [Node.el "a" [] [.text "Home"]]]).allDenylistRoots = true ∧
    clean_html (nodes [Node.el "script" [] [.text "alert(1)"],
            Node.el "nav" [] [Node.el "a" [] [.text "Home"]]]) = "" :=
  ⟨by decide, (c2_denylist_removal _).2 (by decide)⟩

/-- C3: when the HTTP fetch fails with a transport error or a non-2xx
status, `extract_content` catches the `requests.RequestException` and
returns the empty string instead of raising past the extraction boundary,
so callers distinguish the failure solely by the content being blank. -/
theorem c3_fetch_failure_returns_empty (w : Website) (detail : String) :
    w.extract_content (.failure detail) = (w, .ok "") := rfl

/-- C4: `summarize_article_from_url` performs fetch-then-extract; when the
extracted content is blank (empty or whitespace-only) it returns a failure
without invoking the completion client, and otherwise it returns the
completion client's result for that content and analysis type unchanged
(the boolean component records whether the client was invoked). -/
theorem c4_service_url_orchestration (api : String → String → CompletionOutcome)
    (fetch : FetchResult) (article_url analysis_type content : String)
    (h : ((Website.init article_url).extract_content fetch).2 = .ok content) :
    (pyStrip content = "" →
      summarize_article_from_url api fetch article_url analysis_type = (none, false)) ∧
    (pyStrip content ≠ "" →
      summarize_article_from_url api fetch article_url analysis_type =
        (summarize_content api content analysis_type, true)) := by
  constructor
  · intro hb
    simp only [summarize_article_from_url, h]
    simp [hb]
  · intro hb
    simp only [summarize_article_from_url, h]
    have hcond : ¬(content = "" ∨ pyStrip content = "") := by
      rintro (rfl | hc)
      · exact hb rfl
      · exact hb hc
    rw [if_neg hcond]

/-- Witness for C4: a failed fetch extracts to blank content, and the
service then fails without invoking the completion client. -/
theorem c4_witness :
    ((Website.init "example.com").extract_content (.failure "connection refused")).2
      = Except.ok "" ∧
    summarize_article_from_url (fun _ _ => .success "a summary")
      (.failure "connection refused") "example.com" "summary" = (none, false) :=
  ⟨rfl, (c4_service_url_orchestration (fun _ _ => .success "a summary")
    (.failure "connection refused") "example.com" "summary" "" rfl).1 rfl⟩

/-- C5: whenever the completion call fails (rate limit, API error or
unexpected error), the client returns `None`, and the caller of
`summarize_article_from_url` receives `None` as well — the failure is a
returned value; no exception escapes the client or service boundary. -/
theorem c5_completion_failure_is_none (api : String → String → CompletionOutcome)
    (hfail : ∀ sys usr t, api sys usr ≠ .success t) :
    (∀ content analysis_type, summarize_content api content analysis_type = none) ∧
    (∀ fetch article_url analysis_type,
      (summarize_article_from_url api fetch article_url analysis_type).1 = none) := by
  have hcl : ∀ content analysis_type, summarize_content api content analysis_type = none := by
    intro content analysis_type
    rw [summarize_content]
    cases h : api ("You are a helpful assistant who is an expert financial analyst. "
                    ++ prompts_get analysis_type)
                  ("Here is the content to analyze:\n\n" ++ content) with
    | success t => exact absurd h (hfail _ _ t)
    | rateLimited => rfl
    | apiError m => rfl
    | unexpectedError m => rfl
  refine ⟨hcl, ?_⟩
  intro fetch article_url analysis_type
  rw [summarize_article_from_url]
  cases hx : ((Website.init article_url).extract_content fetch).2 with
  | error e => rfl
  | ok content =>
      split
      · rfl
      · split
        · rfl
        · simp [hcl]

/-- Witness for C5: a rate-limited completion stub makes both the client
and the service return `None` on a successfully fetched article. -/
theorem c5_witness :
    summarize_content (fun _ _ => .rateLimited) "Quarterly earnings rose." "summary"
      = none ∧
    (summarize_article_from_url (fun _ _ => .rateLimited)
      (.success (nodes [Node.el "p" [] [.text "Quarterly earnings rose."]]))
      "example.com" "summary").1 = none :=
  ⟨(c5_completion_failure_is_none _ (fun _ _ _ h => CompletionOutcome.noConfusion h)).1 _ _,
   (c5_completion_failure_is_none _ (fun _ _ _ h => CompletionOutcome.noConfusion h)).2 _ _ _⟩

/-- C6 (code bug): on a document with an empty `<title>` element the claim
expects the sentinel `"No Title"`, but `_get_title` evaluates
`soup.title.string.strip()` where `.string` is `None` for a childless tag,
so it raises `AttributeError` instead; `extract_content` does not catch it
(only `requests.RequestException` is caught there), so the exception
propagates out of the extraction boundary. -/
theorem c6_empty_title_raises :
    get_title (nodes [Node.el "html" [] [Node.el "head" [] [Node.el "title" [] []]]]) =
      .error "AttributeError" ∧
    ((Website.init "example.com").extract_content
        (.success (nodes [Node.el "html" [] [Node.el "head" [] [Node.el "title" [] []]]]))).2 =
      .error "AttributeError" :=
  ⟨rfl, rfl⟩

/-- C7 (counterexample): with a `<meta name="description" content="">`
element present, the claim expects the sentinel `"No Description"`, but
`_get_description` only checks `"content" in attrs` (not non-emptiness) and
returns the trimmed empty value. -/
theorem c7_counterexample :
    get_description (nodes [Node.el "head" []
      [Node.el "meta" [("name", "description"), ("content", "")] []]]) = "" ∧
    get_description (nodes [Node.el "head" []
      [Node.el "meta" [("name", "description"), ("content", "")] []]]) ≠ "No Description" :=
  ⟨rfl, by decide⟩

/-- C7 (amended): description extraction returns the trimmed `content`
attribute value whenever a `<meta name="description">` element is present
and carries a `content` attribute — even an empty one, in which case the
result is the empty string, not the sentinel — and returns
`"No Description"` exactly when no such element exists or the element lacks
a `content` attribute. -/
theorem c7_description_extraction (doc : NodeList) :
    (doc.find? isMetaDescription = none → get_description doc = "No Description") ∧
    (∀ t a c, doc.find? isMetaDescription = some (t, a, c) →
      (a.lookup "content" = none → get_description doc = "No Description") ∧
      (∀ v, a.lookup "content" = some v → get_description doc = pyStrip v)) := by
  constructor
  · intro h
    simp only [get_description, h]
  · intro t a c h
    constructor
    · intro hc
      simp only [get_description, h, hc]
    · intro v hv
      simp only [get_description, h, hv]

/-- Witness for C7: a present `meta description` element with a non-empty
`content` attribute yields its trimmed value. -/
theorem c7_witness :
    (nodes [Node.el "meta" [("name", "description"),
        ("content", "  A daily market digest.  ")] []]).find? isMetaDescription =
      some ("meta", [("name", "description"), ("content", "  A daily market digest.  ")], .nil) ∧
    get_description (nodes [Node.el "meta" [("name", "description"),
        ("content", "  A daily market digest.  ")] []]) = "A daily market digest." := by
  refine ⟨rfl, ?_⟩
  have h := ((c7_description_extraction
      (nodes [Node.el "meta" [("name", "description"),
        ("content", "  A daily market digest.  ")] []])).2
    "meta" [("name", "description"), ("content", "  A daily market digest.  ")] .nil rfl).2
    "  A daily market digest.  " rfl
  rw [h]
  decide

/-- C8: `summarize_text` returns a failure, without issuing any completion
call, when the text is empty or whitespace-only; otherwise it forwards the
text and analysis type directly to the completion client and returns its
result unchanged (the boolean component records whether the client was
invoked). -/
theorem c8_text_blank_guard (api : String → String → CompletionOutcome)
    (text analysis_type : String) :
    (pyStrip text = "" → summarize_text api text analysis_type = (none, false)) ∧
    (pyStrip text ≠ "" → summarize_text api text analysis_type =
      (summarize_content api text analysis_type, true)) := by
  constructor
  · intro hb
    simp only [summarize_text]
    simp [hb]
  · intro hb
    simp only [summarize_text]
    have hcond : ¬(text = "" ∨ pyStrip text = "") := by
      rintro (rfl | hc)
      · exact hb rfl
      · exact hb hc
    rw [if_neg hcond]

/-- Witness for C8: the empty text is rejected without a completion call. -/
theorem c8_witness :
    pyStrip "" = "" ∧
    summarize_text (fun _ _ => .success "a summary") "" "summary" = (none, false) :=
  ⟨rfl, (c8_text_blank_guard _ _ _).1 rfl⟩

/-- C9: the analysis-prompt mapping is total: every analysis-type string,
including strings outside the four recognized keys, yields a non-empty
system prompt, and every unrecognized string maps to the `summary`
prompt rather than being rejected. -/
theorem c9_prompt_total (analysis_type : String) :
    prompts_get analysis_type ≠ "" ∧
    (analysis_type ∉ ["summary", "key_points", "action_items", "risks"] →
      prompts_get analysis_type = prompts_get "summary") := by
  by_cases h1 : analysis_type = "summary"
  · subst h1
    exact ⟨by decide, fun hmem => (hmem (by decide)).elim⟩
  by_cases h2 : analysis_type = "key_points"
  · subst h2
    exact ⟨by decide, fun hmem => (hmem (by decide)).elim⟩
  by_cases h3 : analysis_type = "action_items"
  · subst h3
    exact ⟨by decide, fun hmem => (hmem (by decide)).elim⟩
  by_cases h4 : analysis_type = "risks"
  · subst h4
    exact ⟨by decide, fun hmem => (hmem (by decide)).elim⟩
  have e1 : (analysis_type == "summary") = false := beq_eq_false_iff_ne.mpr h1
  have e2 : (analysis_type == "key_points") = false := beq_eq_false_iff_ne.mpr h2
  have e3 : (analysis_type == "action_items") = false := beq_eq_false_iff_ne.mpr h3
  have e4 : (analysis_type == "risks") = false := beq_eq_false_iff_ne.mpr h4
  have hl : prompts.lookup analysis_type = none := by
    simp [prompts, List.lookup, e1, e2, e3, e4]
  have he : prompts_get analysis_type = summaryPrompt := by
    rw [prompts_get, hl]
    rfl
  refine ⟨?_, fun _ => ?_⟩
  · rw [he]; decide
  · rw [he]; decide

/-- Witness for C9: an unrecognized analysis type gets the non-empty
`summary` prompt. -/
theorem c9_witness :
    "esoteric" ∉ ["summary", "key_points", "action_items", "risks"] ∧
    prompts_get "esoteric" ≠ "" ∧
    prompts_get "esoteric" = prompts_get "summary" :=
  ⟨by decide, (c9_prompt_total "esoteric").1, (c9_prompt_total "esoteric").2 (by decide)⟩

/-- C10: when the fetch fails, `extract_content` returns with the
`Website` object entirely unchanged, so `title` and `description` remain
the empty strings set by `__init__` — not the sentinels — and `content`
also remains the empty string: no field is partially updated on the error
path. -/
theorem c10_failure_preserves_init_fields (article_url detail : String) :
    (Website.init article_url).extract_content (.failure detail) =
      (Website.init article_url, .ok "") ∧
    (Website.init article_url).title = "" ∧
    (Website.init article_url).description = "" ∧
    (Website.init article_url).content = "" :=
  ⟨rfl, rfl, rfl, rfl⟩

end Summarization
